import Mathlib

/-!
Shallow embedding of the SpiOpi dual-mode (SPI/OPI) flash controller of
src/gateware/spinor.py: the SPI PHY cycle machine (`spiphy`), the OPI PHY
cycle machine (`opiphy`), the MAC command machine (`mac`), and the ECC
fault monitor.  Every multi-bit Migen signal is a `Nat` truncated to its
declared width at each assignment point; 1-bit signals are `Bool`.  Each
Migen FSM `act` block becomes one arm of a step function: `NextValue`
becomes a field update visible in the returned state, with every update
computed from the pre-step state, exactly as in synchronous hardware.
Naked combinational pulses (`spi_di_load`) are recomputed from the
current state.  Python operator precedence is preserved literally where
it matters (`spicount <= 1 & spi_req`, `opicount == 0 & opi_req_rx`,
`~new_cycle & self.bus.cti == 2` all bind the bitwise operator tighter
than the comparison).
-/

namespace Spinor

def b2n (b : Bool) : Nat := if b then 1 else 0

/-- Decrement of a 5-bit counter, wrapping 0 to 31 (Migen `sig - 1` on a
`Signal(5)`). -/
def dec5 (c : Nat) : Nat := (c + 31) % 32

/-! ## SPI PHY (spinor.py lines 319-391) -/

inductive SpiSt
  | RESET
  | REQ
  | DUMMY
deriving DecidableEq, Repr

structure SpiPhyState where
  st : SpiSt
  spicount : Nat      -- Signal(5)
  spi_clk_en : Bool
  spi_so : Nat        -- Signal(8), output shift register, MSB on the wire
  spi_dummy : Bool
  spi_ack_pipe : Bool
  spi_di_load2 : Bool
  spi_di : Nat        -- Signal(8)
  spi_ack : Bool
  spi_si : Nat        -- Signal(8), input shift register
deriving DecidableEq, Repr

structure SpiPhyIn where
  spi_req : Bool
  spi_do : Nat        -- Signal(8), driven by the MAC
  has_dummy : Bool
  cfg_dummy : Nat     -- config.fields.dummy, Signal(5)
  miso : Bool
deriving DecidableEq, Repr

/-- One clock of the SPI PHY: the sync pipeline of lines 326-332 plus the
`spiphy` FSM of lines 333-391. -/
def spiphyStep (s : SpiPhyState) (i : SpiPhyIn) : SpiPhyState :=
  -- `spi_di_load` pulses in each of the three `spicount == 0` branches of REQ
  let load : Bool := decide (s.st = SpiSt.REQ ∧ s.spicount = 0)
  let shiftIn : Nat := s.spi_si % 128 * 2 + b2n i.miso
  let s0 : SpiPhyState :=
    { s with
      spi_di_load2 := load
      spi_di := if s.spi_di_load2 then shiftIn else s.spi_di
      spi_ack := s.spi_ack_pipe
      spi_si := shiftIn }
  match s.st with
  | SpiSt.RESET =>
      if i.spi_req then
        { s0 with st := SpiSt.REQ, spicount := 7, spi_clk_en := true,
                  spi_so := i.spi_do % 256, spi_dummy := i.has_dummy }
      else
        { s0 with spi_clk_en := false, spi_ack_pipe := false, spicount := 0,
                  spi_dummy := false }
  | SpiSt.REQ =>
      if s.spicount > 0 then
        { s0 with spicount := s.spicount - 1, spi_clk_en := true,
                  spi_so := s.spi_so % 128 * 2, spi_ack_pipe := false }
      else if i.spi_req ∧ ¬ s.spi_dummy then
        -- back-to-back transaction
        { s0 with spi_clk_en := true, spicount := 7, spi_so := i.spi_do % 256,
                  spi_ack_pipe := true, spi_dummy := i.has_dummy }
      else if ¬ i.spi_req ∧ ¬ s.spi_dummy then
        { s0 with spi_ack_pipe := true, spi_clk_en := false, st := SpiSt.RESET }
      else
        -- spicount == 0 and spi_dummy
        { s0 with spicount := i.cfg_dummy % 32, spi_clk_en := true,
                  spi_ack_pipe := false, spi_so := 0, st := SpiSt.DUMMY }
  | SpiSt.DUMMY =>
      if s.spicount > 1 then
        { s0 with spicount := s.spicount - 1, spi_clk_en := true }
      else if s.spicount ≤ Nat.land 1 (b2n i.spi_req) then
        -- line 380 reads `spicount <= 1 & spi_req`, which parenthesizes as
        -- `spicount <= (1 & spi_req)`; this branch has no NextState and so
        -- remains in DUMMY
        { s0 with spi_clk_en := true, spicount := 7, spi_so := i.spi_do % 256,
                  spi_ack_pipe := true, spi_dummy := i.has_dummy }
      else
        { s0 with spi_clk_en := false, spi_ack_pipe := true, st := SpiSt.RESET }

def spiphyInit : SpiPhyState :=
  { st := SpiSt.RESET, spicount := 0, spi_clk_en := false, spi_so := 0,
    spi_dummy := false, spi_ack_pipe := false, spi_di_load2 := false,
    spi_di := 0, spi_ack := false, spi_si := 0 }

/-! ## OPI PHY (spinor.py lines 393-445) -/

inductive OpiSt
  | IDLE
  | RX_PIPE
  | DUMMY
deriving DecidableEq, Repr

structure OpiPhyState where
  st : OpiSt
  tx : Bool
  opi_clk_en : Bool
  do_reg : Nat     -- self.do, Signal(16)
  opicount : Nat   -- Signal(5)
  opi_ack : Bool
  opi_di : Nat     -- Signal(16)
deriving DecidableEq, Repr

structure OpiPhyIn where
  opi_req_tx : Bool
  opi_req_rx : Bool
  has_dummy : Bool
  opi_do : Nat     -- Signal(16), driven by the MAC
  cfg_dummy : Nat  -- config.fields.dummy, Signal(5)
  di : Nat         -- self.di, Signal(16), deserialized wire data
deriving DecidableEq, Repr

/-- One clock of the `opiphy` FSM. -/
def opiphyStep (s : OpiPhyState) (i : OpiPhyIn) : OpiPhyState :=
  match s.st with
  | OpiSt.IDLE =>
      if i.opi_req_tx ∧ ¬ i.has_dummy then
        { s with tx := true, opi_clk_en := true, do_reg := i.opi_do % 65536,
                 opi_ack := true }
      else if i.opi_req_tx ∧ i.has_dummy then
        { s with tx := true, st := OpiSt.DUMMY, opi_clk_en := true,
                 do_reg := i.opi_do % 65536,
                 opicount := (i.cfg_dummy % 32 + 31) % 32,
                 opi_ack := false }
      else if i.opi_req_rx then
        { s with tx := false, st := OpiSt.RX_PIPE, opi_clk_en := true }
      else
        { s with tx := false, opi_clk_en := false, opi_ack := false,
                 opicount := 0 }
  | OpiSt.RX_PIPE =>
      let s0 := { s with opi_di := i.di % 65536, opi_ack := true }
      if ¬ i.opi_req_rx then { s0 with st := OpiSt.IDLE, opi_clk_en := false }
      else { s0 with opi_clk_en := true }
  | OpiSt.DUMMY =>
      let s0 := { s with tx := false }
      if s.opicount > 0 then
        { s0 with opicount := s.opicount - 1, do_reg := 0, opi_clk_en := true }
      else
        -- line 437 reads `opicount == 0 & opi_req_rx`, which parenthesizes
        -- as `opicount == (0 & opi_req_rx)`, that is `opicount == 0`; the
        -- final Else branch of the source is therefore unreachable
        { s0 with st := OpiSt.RX_PIPE, opi_clk_en := true, opi_ack := true }

def opiphyInit : OpiPhyState :=
  { st := OpiSt.IDLE, tx := false, opi_clk_en := false, do_reg := 0,
    opicount := 0, opi_ack := false, opi_di := 0 }

/-! ## MAC command machine (spinor.py lines 447-806) -/

inductive MacSt
  | RESET
  | IDLE
  | OPI_READ_32_D
  | OPI_READ_32_DLO
  | OPI_READ_32_CS
  | OPI_READ_32_A0
  | OPI_READ_32_A1
  | OPI_READ_32_A2
  | OPI_READ_32_ACKWAIT
  | OPI_READ_32_DUMMY
  | WAKEUP_PRE
  | WAKEUP_PRE_CS_WAIT
  | WAKEUP_WUP
  | WAKEUP_WUP_WAIT
  | WAKEUP_CR2_WREN_1
  | WAKEUP_CR2_WREN_1_WAIT
  | WAKEUP_CR2_DUMMY_CMD
  | WAKEUP_CR2_DUMMY_ADRHI
  | WAKEUP_CR2_DUMMY_ADRMID
  | WAKEUP_CR2_DUMMY_ADRLO
  | WAKEUP_CR2_DUMMY_DATA
  | WAKEUP_CR2_DUMMY_WAIT
  | WAKEUP_CR2_WREN_2
  | WAKEUP_CR2_WREN_2_WAIT
  | WAKEUP_CR2_DOPI_CMD
  | WAKEUP_CR2_DOPI_ADR
  | WAKEUP_CR2_DOPI_DATA
  | WAKEUP_CR2_DOPI_WAIT
  | WAKEUP_CS_EXIT
  | SPI_READ_32
  | SPI_READ_32_D
  | SPI_READ_32_CS
  | SPI_READ_32_A0
  | SPI_READ_32_A1
  | SPI_READ_32_A2
  | SPI_READ_32_A3
  | SPI_READ_32_A4
  | SPI_READ_32_A5
  | SPI_READ_32_DUMMY
deriving DecidableEq, Repr

structure MacState where
  st : MacSt
  spi_mode : Bool     -- self.spi_mode, Signal() (power-on value 0)
  addr_updated : Bool
  d_to_wb : Nat       -- Signal(32)
  cs_n : Bool         -- Signal(reset=1)
  has_dummy : Bool
  spi_do : Nat        -- Signal(8)
  spi_req : Bool
  opi_do : Nat        -- Signal(16)
  opi_req_tx : Bool
  opi_req_rx : Bool
  mac_count : Nat     -- Signal(5)
  bus_ack : Bool
  bus_dat_r : Nat     -- Signal(32)
  new_cycle : Bool    -- Signal(1)
  rom_addr : Nat      -- Signal(32, reset=0xFFFFFFFC)
  command_storage : Nat -- command CSR storage: bit 0 rdid, bit 1 wakeup
  id_reg : Nat        -- id CSRStatus (no assignment anywhere in the gateware)
deriving DecidableEq, Repr

structure MacIn where
  bus_cyc : Bool
  bus_stb : Bool
  bus_we : Bool
  bus_cti : Nat       -- Signal(3)
  bus_adr : Nat       -- Signal(30)
  spi_ack : Bool
  spi_di : Nat        -- Signal(8)
  opi_ack : Bool
  opi_di : Nat        -- Signal(16)
  cmd_write : Option Nat -- software CSR write into command.storage this cycle
deriving DecidableEq, Repr

/-- The read-request qualifier of the IDLE state (line 487):
`(bus.cyc == 1) & (bus.stb == 1) & (bus.we == 0) & (bus.cti != 7)`. -/
def readReq (i : MacIn) : Bool :=
  i.bus_cyc && i.bus_stb && !i.bus_we && decide (i.bus_cti % 8 ≠ 7)

/-- One clock of the `mac` FSM.  The software write into `command.storage`
is modelled as the default update, overridden when the IDLE wakeup branch
clears the register (the `write_from_dev` path). -/
def macStep (s0 : MacState) (i : MacIn) : MacState :=
  let s : MacState :=
    { s0 with command_storage :=
        match i.cmd_write with
        | some v => v % 4
        | none => s0.command_storage }
  let adr := i.bus_adr % 2 ^ 30
  match s0.st with
  | MacSt.RESET =>
      { s with st := MacSt.WAKEUP_PRE,
               spi_mode := true, addr_updated := false, d_to_wb := 0,
               cs_n := true, has_dummy := false, spi_do := 0, spi_req := false,
               opi_do := 0, opi_req_tx := false, opi_req_rx := false,
               mac_count := 0, bus_ack := false, new_cycle := true }
  | MacSt.IDLE =>
      let s1 := { s with bus_ack := false,
                         new_cycle := if i.bus_stb = false then true
                                      else s0.new_cycle }
      if readReq i then
        if s0.rom_addr % 2 ^ 32 / 4 ≠ adr ∧ s0.new_cycle then
          let s2 := { s1 with rom_addr := adr * 4, addr_updated := true,
                              cs_n := true, new_cycle := false }
          if s0.spi_mode then
            { s2 with mac_count := 3, st := MacSt.SPI_READ_32_CS }
          else
            { s2 with mac_count := 0, st := MacSt.OPI_READ_32_CS }
        else if s0.rom_addr % 2 ^ 32 / 4 = adr ∨
                Nat.land (b2n (! s0.new_cycle)) (i.bus_cti % 8) = 2 then
          -- line 501 reads `(~new_cycle & self.bus.cti == 2)`, which
          -- parenthesizes as `(~new_cycle & bus.cti) == 2`; the 1-bit
          -- `~new_cycle` operand keeps that value below 2, so only the
          -- address comparison can take this branch
          if s0.spi_mode then
            { s1 with mac_count := 3, st := MacSt.SPI_READ_32 }
          else
            { s1 with opi_req_rx := true, st := MacSt.OPI_READ_32_D }
        else
          let s2 := { s1 with addr_updated := false, cs_n := false }
          if ¬ s0.spi_mode then
            { s2 with opi_req_rx := true, st := MacSt.OPI_READ_32_D }
          else
            { s2 with st := MacSt.SPI_READ_32, mac_count := 3 }
      else if Nat.testBit s0.command_storage 1 then
        { s1 with cs_n := true, command_storage := 0, st := MacSt.WAKEUP_PRE }
      else s1
  | MacSt.OPI_READ_32_D =>
      { s with d_to_wb := s0.d_to_wb % 2 ^ 32 / 2 ^ 16 +
                          i.opi_di % 2 ^ 16 * 2 ^ 16,
               rom_addr := (s0.rom_addr + 2) % 2 ^ 32,
               st := MacSt.OPI_READ_32_DLO }
  | MacSt.OPI_READ_32_DLO =>
      { s with d_to_wb := s0.d_to_wb % 2 ^ 32 / 2 ^ 16 +
                          i.opi_di % 2 ^ 16 * 2 ^ 16,
               bus_ack := true,
               rom_addr := (s0.rom_addr + 2) % 2 ^ 32,
               opi_req_rx := false,
               st := MacSt.IDLE }
  | MacSt.OPI_READ_32_CS =>
      let s1 := { s with mac_count := dec5 s0.mac_count }
      if s0.mac_count = 0 then
        { s1 with cs_n := false, st := MacSt.OPI_READ_32_A0 }
      else s1
  | MacSt.OPI_READ_32_A0 =>
      { s with opi_do := 0xEE11, opi_req_tx := true,
               st := MacSt.OPI_READ_32_A1 }
  | MacSt.OPI_READ_32_A1 =>
      { s with opi_do := Nat.land (s0.rom_addr % 2 ^ 32 / 2 ^ 16) 0x07FF,
               st := MacSt.OPI_READ_32_A2 }
  | MacSt.OPI_READ_32_A2 =>
      { s with opi_do := s0.rom_addr % 2 ^ 16, has_dummy := true,
               st := MacSt.OPI_READ_32_ACKWAIT }
  | MacSt.OPI_READ_32_ACKWAIT =>
      { s with has_dummy := false, opi_req_tx := false,
               st := MacSt.OPI_READ_32_DUMMY }
  | MacSt.OPI_READ_32_DUMMY =>
      if i.opi_ack then
        { s with opi_req_rx := true, st := MacSt.OPI_READ_32_D }
      else s
  | MacSt.WAKEUP_PRE =>
      { s with cs_n := true, mac_count := 4, st := MacSt.WAKEUP_PRE_CS_WAIT }
  | MacSt.WAKEUP_PRE_CS_WAIT =>
      let s1 := { s with mac_count := dec5 s0.mac_count }
      if s0.mac_count = 0 then
        { s1 with st := MacSt.WAKEUP_WUP, cs_n := false }
      else s1
  | MacSt.WAKEUP_WUP =>
      let s1 := { s with mac_count := dec5 s0.mac_count }
      if s0.mac_count = 0 then
        { s1 with cs_n := false, spi_do := 0xAB, spi_req := true,
                  st := MacSt.WAKEUP_WUP_WAIT }
      else s1
  | MacSt.WAKEUP_WUP_WAIT =>
      let s1 := { s with spi_req := false }
      if i.spi_ack then
        { s1 with cs_n := true, mac_count := 4,
                  st := MacSt.WAKEUP_CR2_WREN_1 }
      else s1
  | MacSt.WAKEUP_CR2_WREN_1 =>
      let s1 := { s with mac_count := dec5 s0.mac_count }
      if s0.mac_count = 0 then
        { s1 with cs_n := false, spi_do := 0x06, spi_req := true,
                  st := MacSt.WAKEUP_CR2_WREN_1_WAIT }
      else s1
  | MacSt.WAKEUP_CR2_WREN_1_WAIT =>
      let s1 := { s with spi_req := false }
      if i.spi_ack then
        { s1 with cs_n := true, mac_count := 4,
                  st := MacSt.WAKEUP_CR2_DUMMY_CMD }
      else s1
  | MacSt.WAKEUP_CR2_DUMMY_CMD =>
      let s1 := { s with mac_count := dec5 s0.mac_count }
      if s0.mac_count = 0 then
        { s1 with cs_n := false, spi_do := 0x72, spi_req := true,
                  mac_count := 2, st := MacSt.WAKEUP_CR2_DUMMY_ADRHI }
      else s1
  | MacSt.WAKEUP_CR2_DUMMY_ADRHI =>
      let s1 := { s with spi_do := 0x00 }
      let s2 := if i.spi_ack then { s1 with mac_count := dec5 s0.mac_count }
                else s1
      if s0.mac_count = 0 then
        { s2 with st := MacSt.WAKEUP_CR2_DUMMY_ADRMID }
      else s2
  | MacSt.WAKEUP_CR2_DUMMY_ADRMID =>
      let s1 := { s with spi_do := 0x03 }
      if i.spi_ack then { s1 with st := MacSt.WAKEUP_CR2_DUMMY_ADRLO } else s1
  | MacSt.WAKEUP_CR2_DUMMY_ADRLO =>
      let s1 := { s with spi_do := 0x00 }
      if i.spi_ack then { s1 with st := MacSt.WAKEUP_CR2_DUMMY_DATA } else s1
  | MacSt.WAKEUP_CR2_DUMMY_DATA =>
      let s1 := { s with spi_do := 0x05 }
      if i.spi_ack then { s1 with st := MacSt.WAKEUP_CR2_DUMMY_WAIT } else s1
  | MacSt.WAKEUP_CR2_DUMMY_WAIT =>
      let s1 := { s with spi_req := false }
      if i.spi_ack then
        { s1 with cs_n := true, mac_count := 4,
                  st := MacSt.WAKEUP_CR2_WREN_2 }
      else s1
  | MacSt.WAKEUP_CR2_WREN_2 =>
      let s1 := { s with mac_count := dec5 s0.mac_count }
      if s0.mac_count = 0 then
        { s1 with cs_n := false, spi_do := 0x06, spi_req := true,
                  st := MacSt.WAKEUP_CR2_WREN_2_WAIT }
      else s1
  | MacSt.WAKEUP_CR2_WREN_2_WAIT =>
      let s1 := { s with spi_req := false }
      if i.spi_ack then
        { s1 with cs_n := true, mac_count := 4,
                  st := MacSt.WAKEUP_CR2_DOPI_CMD }
      else s1
  | MacSt.WAKEUP_CR2_DOPI_CMD =>
      let s1 := { s with mac_count := dec5 s0.mac_count }
      if s0.mac_count = 0 then
        { s1 with cs_n := false, spi_do := 0x72, spi_req := true,
                  mac_count := 4, st := MacSt.WAKEUP_CR2_DOPI_ADR }
      else s1
  | MacSt.WAKEUP_CR2_DOPI_ADR =>
      let s1 := { s with spi_do := 0x00 }
      let s2 := if i.spi_ack then { s1 with mac_count := dec5 s0.mac_count }
                else s1
      if s0.mac_count = 0 then
        { s2 with st := MacSt.WAKEUP_CR2_DOPI_DATA }
      else s2
  | MacSt.WAKEUP_CR2_DOPI_DATA =>
      let s1 := { s with spi_do := 2 }
      if i.spi_ack then { s1 with st := MacSt.WAKEUP_CR2_DOPI_WAIT } else s1
  | MacSt.WAKEUP_CR2_DOPI_WAIT =>
      let s1 := { s with spi_req := false }
      if i.spi_ack then
        { s1 with cs_n := true, mac_count := 4, st := MacSt.WAKEUP_CS_EXIT }
      else s1
  | MacSt.WAKEUP_CS_EXIT =>
      let s1 := { s with spi_mode := false, mac_count := dec5 s0.mac_count }
      if s0.mac_count = 0 then { s1 with st := MacSt.IDLE } else s1
  | MacSt.SPI_READ_32 =>
      if s0.addr_updated then
        { s with st := MacSt.SPI_READ_32_CS, has_dummy := false,
                 mac_count := 3, cs_n := true, spi_req := false }
      else if s0.mac_count > 0 then
        { s with has_dummy := false, spi_req := true,
                 st := MacSt.SPI_READ_32_D }
      else
        let s1 := { s with spi_req := false }
        if i.spi_ack then
          { s1 with bus_dat_r := s0.d_to_wb % 2 ^ 32 / 256 +
                                 i.spi_di % 256 * 2 ^ 24,
                    bus_ack := true,
                    rom_addr := (s0.rom_addr + 1) % 2 ^ 32,
                    st := MacSt.IDLE }
        else s1
  | MacSt.SPI_READ_32_D =>
      if i.spi_ack then
        { s with d_to_wb := s0.d_to_wb % 2 ^ 32 / 256 +
                            i.spi_di % 256 * 2 ^ 24,
                 mac_count := dec5 s0.mac_count,
                 st := MacSt.SPI_READ_32,
                 rom_addr := (s0.rom_addr + 1) % 2 ^ 32 }
      else s
  | MacSt.SPI_READ_32_CS =>
      let s1 := { s with mac_count := dec5 s0.mac_count }
      if s0.mac_count = 0 then
        { s1 with cs_n := false, st := MacSt.SPI_READ_32_A0 }
      else s1
  | MacSt.SPI_READ_32_A0 =>
      { s with spi_do := 0x0C, spi_req := true, st := MacSt.SPI_READ_32_A1 }
  | MacSt.SPI_READ_32_A1 =>
      let s1 := { s with spi_do := Nat.land (s0.rom_addr % 2 ^ 32 / 2 ^ 24) 7 }
      if i.spi_ack then { s1 with st := MacSt.SPI_READ_32_A2 } else s1
  | MacSt.SPI_READ_32_A2 =>
      let s1 := { s with spi_do := s0.rom_addr / 2 ^ 16 % 256 }
      if i.spi_ack then { s1 with st := MacSt.SPI_READ_32_A3 } else s1
  | MacSt.SPI_READ_32_A3 =>
      let s1 := { s with spi_do := s0.rom_addr / 2 ^ 8 % 256 }
      if i.spi_ack then { s1 with st := MacSt.SPI_READ_32_A4 } else s1
  | MacSt.SPI_READ_32_A4 =>
      let s1 := { s with spi_do := s0.rom_addr % 256 }
      if i.spi_ack then { s1 with st := MacSt.SPI_READ_32_A5 } else s1
  | MacSt.SPI_READ_32_A5 =>
      let s1 := { s with spi_do := 0 }
      if i.spi_ack then { s1 with st := MacSt.SPI_READ_32_DUMMY } else s1
  | MacSt.SPI_READ_32_DUMMY =>
      let s1 := { s with spi_req := false, addr_updated := false }
      if i.spi_ack then
        { s1 with st := MacSt.SPI_READ_32, mac_count := 3 }
      else s1

def macInit : MacState :=
  { st := MacSt.RESET, spi_mode := false, addr_updated := false, d_to_wb := 0,
    cs_n := true, has_dummy := false, spi_do := 0, spi_req := false,
    opi_do := 0, opi_req_tx := false, opi_req_rx := false, mac_count := 0,
    bus_ack := false, bus_dat_r := 0, new_cycle := false,
    rom_addr := 0xFFFFFFFC, command_storage := 0, id_reg := 0 }

/-! ## ECC fault monitor (spinor.py lines 808-855)

The source drives `ecc_address` and `ecc_overflow` through a `comb` block
whose Else arms feed each signal back to itself (lines 830-847); those
arms describe state-holding elements and are embedded, together with the
`sync` block of lines 848-855, as registers updated once per clock.
`status_we` and `address_we` are the CSRStatus `we` strobes that pulse
when software reads the respective register. -/

structure EccState where
  ecc_address : Nat    -- CSR field, 32 bits
  ecc_reported : Bool
  ecc_overflow : Bool
  ecs_n_delay : Bool
deriving DecidableEq, Repr

structure EccIn where
  ecs_n : Bool         -- resynchronized device strobe (active low)
  rom_addr : Nat       -- the MAC address pointer sampled on a fault
  status_we : Bool     -- software read of ecc_status
  address_we : Bool    -- software read of ecc_address
deriving DecidableEq, Repr

def eccStep (s : EccState) (i : EccIn) : EccState :=
  let pulse : Bool := s.ecs_n_delay && ! i.ecs_n  -- falling edge detector
  { ecc_address := if pulse then i.rom_addr % 2 ^ 32 else s.ecc_address
    ecc_overflow :=
      if pulse then (if s.ecc_reported then true else s.ecc_overflow)
      else (if i.status_we then false else s.ecc_overflow)
    ecc_reported :=
      if pulse then true
      else (if i.address_we then false else s.ecc_reported)
    ecs_n_delay := i.ecs_n }

def eccInit : EccState :=
  { ecc_address := 0, ecc_reported := false, ecc_overflow := false,
    ecs_n_delay := false }

/-! ## Composed system: MAC wired to both PHY machines -/

structure Sys where
  mac : MacState
  sphy : SpiPhyState
  ophy : OpiPhyState
deriving DecidableEq, Repr

structure SysIn where
  bus_cyc : Bool
  bus_stb : Bool
  bus_we : Bool
  bus_cti : Nat
  bus_adr : Nat
  cmd_write : Option Nat
  cfg_dummy : Nat
  miso : Bool
  di : Nat
deriving DecidableEq, Repr

def sysStep (s : Sys) (i : SysIn) : Sys :=
  { mac := macStep s.mac
      { bus_cyc := i.bus_cyc, bus_stb := i.bus_stb, bus_we := i.bus_we,
        bus_cti := i.bus_cti, bus_adr := i.bus_adr,
        spi_ack := s.sphy.spi_ack, spi_di := s.sphy.spi_di,
        opi_ack := s.ophy.opi_ack, opi_di := s.ophy.opi_di,
        cmd_write := i.cmd_write }
    sphy := spiphyStep s.sphy
      { spi_req := s.mac.spi_req, spi_do := s.mac.spi_do,
        has_dummy := s.mac.has_dummy, cfg_dummy := i.cfg_dummy,
        miso := i.miso }
    ophy := opiphyStep s.ophy
      { opi_req_tx := s.mac.opi_req_tx, opi_req_rx := s.mac.opi_req_rx,
        has_dummy := s.mac.has_dummy, opi_do := s.mac.opi_do,
        cfg_dummy := i.cfg_dummy, di := i.di } }

def sysInit : Sys := { mac := macInit, sphy := spiphyInit, ophy := opiphyInit }

def sysRun (f : Nat → SysIn) : Nat → Sys
  | 0 => sysInit
  | n + 1 => sysStep (sysRun f n) (f n)

/-- An idle wishbone bus with the default dummy configuration (10). -/
def idleBus : SysIn :=
  { bus_cyc := false, bus_stb := false, bus_we := false, bus_cti := 0,
    bus_adr := 0, cmd_write := none, cfg_dummy := 10, miso := false, di := 0 }

def quietIn : Nat → SysIn := fun _ => idleBus

/-- True in a cycle in which the SPI PHY latches a byte from `spi_do` into
its output shift register: the three loading branches of `spiphy` (RESET
with a request, REQ at count 0 continuing back-to-back, the DUMMY reload
branch). -/
def spiLoads (s : Sys) : Bool :=
  match s.sphy.st with
  | SpiSt.RESET => s.mac.spi_req
  | SpiSt.REQ =>
      decide (s.sphy.spicount = 0 ∧ s.mac.spi_req = true ∧
              s.sphy.spi_dummy = false)
  | SpiSt.DUMMY =>
      decide (¬ s.sphy.spicount > 1 ∧
              s.sphy.spicount ≤ Nat.land 1 (b2n s.mac.spi_req))

/-- Fold over a run collecting, at each byte-load cycle, the byte together
with whether chip select was seen raised since the previous byte and the
current protocol mode flag. -/
def wakeObs (f : Nat → SysIn) : Nat → Sys × Bool × List (Nat × Bool × Bool)
  | 0 => (sysInit, false, [])
  | n + 1 =>
    let r := wakeObs f n
    let s := r.1
    let seen := r.2.1 || s.mac.cs_n
    let acc := r.2.2
    let next :=
      if spiLoads s then (false, acc ++ [(s.mac.spi_do, seen, s.mac.spi_mode)])
      else (seen, acc)
    (sysStep s (f n), next.1, next.2)

/-- The states of the boot and wake-up phase of the MAC: from hardware
reset until `WAKEUP_CS_EXIT` hands over to IDLE. -/
def isWakeup : MacSt → Bool
  | MacSt.RESET => true
  | MacSt.WAKEUP_PRE => true
  | MacSt.WAKEUP_PRE_CS_WAIT => true
  | MacSt.WAKEUP_WUP => true
  | MacSt.WAKEUP_WUP_WAIT => true
  | MacSt.WAKEUP_CR2_WREN_1 => true
  | MacSt.WAKEUP_CR2_WREN_1_WAIT => true
  | MacSt.WAKEUP_CR2_DUMMY_CMD => true
  | MacSt.WAKEUP_CR2_DUMMY_ADRHI => true
  | MacSt.WAKEUP_CR2_DUMMY_ADRMID => true
  | MacSt.WAKEUP_CR2_DUMMY_ADRLO => true
  | MacSt.WAKEUP_CR2_DUMMY_DATA => true
  | MacSt.WAKEUP_CR2_DUMMY_WAIT => true
  | MacSt.WAKEUP_CR2_WREN_2 => true
  | MacSt.WAKEUP_CR2_WREN_2_WAIT => true
  | MacSt.WAKEUP_CR2_DOPI_CMD => true
  | MacSt.WAKEUP_CR2_DOPI_ADR => true
  | MacSt.WAKEUP_CR2_DOPI_DATA => true
  | MacSt.WAKEUP_CR2_DOPI_WAIT => true
  | MacSt.WAKEUP_CS_EXIT => true
  | _ => false

/-- Bus script for the burst-hint scenario: after the wake-up sequence,
read word 5 as a classic cycle, release the bus for two cycles once the
acknowledgment has appeared (cycle 229), then request word 6, the next
sequential word, again with cti = 0, that is with the burst-continues
hint deasserted. -/
def c1In (n : Nat) : SysIn :=
  if n < 210 then idleBus
  else if n < 229 then
    { idleBus with bus_cyc := true, bus_stb := true, bus_cti := 0,
                   bus_adr := 5 }
  else if n < 231 then idleBus
  else
    { idleBus with bus_cyc := true, bus_stb := true, bus_cti := 0,
                   bus_adr := 6 }

/-- Bus script for the sentinel scenario: after the wake-up sequence the
very first read requests word address 0x3FFFFFFF, whose byte address is
exactly the reset value 0xFFFFFFFC of `rom_addr`. -/
def c8In (n : Nat) : SysIn :=
  if n < 210 then idleBus
  else
    { idleBus with bus_cyc := true, bus_stb := true, bus_cti := 0,
                   bus_adr := 0x3FFFFFFF }

/-- Input sequence with two falling edges of the fault strobe, the first
while the MAC address pointer is 0x100, the second while it is 0x200,
with no intervening software read of either CSR. -/
def eccSeq : List EccIn :=
  [ { ecs_n := true, rom_addr := 0x100, status_we := false,
      address_we := false },
    { ecs_n := false, rom_addr := 0x100, status_we := false,
      address_we := false },
    { ecs_n := true, rom_addr := 0x200, status_we := false,
      address_we := false },
    { ecs_n := false, rom_addr := 0x200, status_we := false,
      address_we := false },
    { ecs_n := true, rom_addr := 0x300, status_we := false,
      address_we := false } ]

/-- The inputs held at the SPI PHY while a dummy phase runs: the request
line stays asserted with the first data byte `d` queued, the configured
dummy count is `N`. -/
def spiDin (N d : Nat) : SpiPhyIn :=
  { spi_req := true, spi_do := d, has_dummy := false, cfg_dummy := N,
    miso := false }

/-- The SPI PHY state in the cycle after the eighth bit of a byte whose
request carried `has_dummy`: the REQ state at count 0 with the dummy flag
set, stepped once. -/
def eSpi (N d : Nat) : SpiPhyState :=
  spiphyStep
    { spiphyInit with st := SpiSt.REQ, spicount := 0, spi_dummy := true,
                      spi_clk_en := true }
    (spiDin N d)

def spiphyIter (i : SpiPhyIn) (s : SpiPhyState) : Nat → SpiPhyState
  | 0 => s
  | k + 1 => spiphyStep (spiphyIter i s k) i

/-- The inputs held at the OPI PHY while a dummy phase runs: the transmit
request for the final address word `w` with `has_dummy` asserted, the
configured dummy count is `N`. -/
def opiDin (N w : Nat) : OpiPhyIn :=
  { opi_req_tx := true, opi_req_rx := false, has_dummy := true,
    opi_do := w, cfg_dummy := N, di := 0 }

/-- The OPI PHY state in the cycle after IDLE accepts a transmit request
with a trailing dummy phase. -/
def eOpi (N w : Nat) : OpiPhyState := opiphyStep opiphyInit (opiDin N w)

def opiphyIter (i : OpiPhyIn) (s : OpiPhyState) : Nat → OpiPhyState
  | 0 => s
  | k + 1 => opiphyStep (opiphyIter i s k) i

/-- The byte sequence claimed for the wake-up script: 0xAB, 0x06, then
0x72 followed by 0x00 0x03 0x00 0x05, then 0x06, then 0x72 followed by
0x00 0x00 0x00 0x02. -/
def claimedWakeBytes : List Nat :=
  [0xAB, 0x06, 0x72, 0x00, 0x03, 0x00, 0x05, 0x06, 0x72,
   0x00, 0x00, 0x00, 0x02]

/-! ## Claim C5 -/

/-- Claim C5 counterexample: two falling edges of the fault strobe before
any software read leave `ecc_overflow` set, but the latched address is
0x200, the address of the second (most recent) fault, not the first
fault address 0x100 that the claim requires it to still hold. -/
theorem c5_counterexample :
    (eccSeq.foldl eccStep eccInit).ecc_overflow = true ∧
    (eccSeq.foldl eccStep eccInit).ecc_address = 0x200 ∧
    (eccSeq.foldl eccStep eccInit).ecc_address ≠ 0x100 := by
  decide

/-- Claim C5 as amended: a falling strobe edge sets the reported flag,
latches the address of the current (most recent) fault, and sets the
overflow flag exactly when an unacknowledged fault was already reported;
in a cycle without a falling edge the latched address never changes, a
status-register read clears exactly the overflow flag, and an
address-register read clears exactly the reported flag. -/
theorem c5_fault_decoupling_amended :
    ∀ (s : EccState) (i : EccIn),
      (s.ecs_n_delay = true → i.ecs_n = false →
        (eccStep s i).ecc_reported = true ∧
        (eccStep s i).ecc_address = i.rom_addr % 2 ^ 32 ∧
        (s.ecc_reported = true → (eccStep s i).ecc_overflow = true) ∧
        (s.ecc_reported = false →
          (eccStep s i).ecc_overflow = s.ecc_overflow)) ∧
      (¬ (s.ecs_n_delay = true ∧ i.ecs_n = false) →
        (eccStep s i).ecc_address = s.ecc_address ∧
        (eccStep s i).ecc_overflow =
          (if i.status_we then false else s.ecc_overflow) ∧
        (eccStep s i).ecc_reported =
          (if i.address_we then false else s.ecc_reported)) := by
  intro s i
  rcases s with ⟨a, r, o, d⟩
  rcases i with ⟨e, ra, sw, aw⟩
  cases d <;> cases e <;> cases r <;> cases sw <;> cases aw <;>
    simp [eccStep]

/-- Witness for `c5_fault_decoupling_amended` at a concrete state. -/
theorem c5_fault_decoupling_amended_witness :
    (eccStep
      { ecc_address := 7, ecc_reported := true, ecc_overflow := false,
        ecs_n_delay := true }
      { ecs_n := false, rom_addr := 0x44, status_we := false,
        address_we := false }).ecc_overflow = true :=
  ((c5_fault_decoupling_amended
      { ecc_address := 7, ecc_reported := true, ecc_overflow := false,
        ecs_n_delay := true }
      { ecs_n := false, rom_addr := 0x44, status_we := false,
        address_we := false }).1 rfl rfl).2.2.1 rfl

/-! ## Claim C6 -/

/-- Claim C6: in every cycle spent in `RX_PIPE` the OPI PHY registers the
wire data and the acknowledgment so that both appear exactly one internal
cycle later, for every data value (0x0000 and 0xFFFF included since `di`
is universally quantified); when a receive is accepted from IDLE, the
entry step changes neither the acknowledgment nor the captured data, so
from a quiescent entry (`opi_ack = false`) the acknowledgment and the
valid data appear exactly one cycle after `RX_PIPE` is entered. -/
theorem c6_rx_latency :
    (∀ (s : OpiPhyState) (i : OpiPhyIn), s.st = OpiSt.RX_PIPE →
      (opiphyStep s i).opi_di = i.di % 2 ^ 16 ∧
      (opiphyStep s i).opi_ack = true) ∧
    (∀ (s : OpiPhyState) (i : OpiPhyIn),
      s.st = OpiSt.IDLE → i.opi_req_tx = false → i.opi_req_rx = true →
      (opiphyStep s i).st = OpiSt.RX_PIPE ∧
      (opiphyStep s i).opi_ack = s.opi_ack ∧
      (opiphyStep s i).opi_di = s.opi_di) ∧
    (∀ (s : OpiPhyState) (i1 i2 : OpiPhyIn),
      s.st = OpiSt.IDLE → s.opi_ack = false →
      i1.opi_req_tx = false → i1.opi_req_rx = true →
      (opiphyStep s i1).opi_ack = false ∧
      (opiphyStep (opiphyStep s i1) i2).opi_ack = true ∧
      (opiphyStep (opiphyStep s i1) i2).opi_di = i2.di % 2 ^ 16) := by
  refine ⟨?_, ?_, ?_⟩
  · intro s i hst
    rcases s with ⟨st, tx, ck, dr, oc, oa, od⟩
    cases st <;> simp_all [opiphyStep] <;> split_ifs <;> simp
  · intro s i hst htx hrx
    rcases s with ⟨st, tx, ck, dr, oc, oa, od⟩
    cases st <;> simp_all [opiphyStep]
  · intro s i1 i2 hst hack htx hrx
    rcases s with ⟨st, tx, ck, dr, oc, oa, od⟩
    cases st <;> simp_all [opiphyStep] <;> split_ifs <;> simp

/-- Witness for `c6_rx_latency` with the boundary value 0xFFFF on the
wire. -/
theorem c6_rx_latency_witness :
    (opiphyStep
      (opiphyStep
        { st := OpiSt.IDLE, tx := false, opi_clk_en := false, do_reg := 0,
          opicount := 0, opi_ack := false, opi_di := 0 }
        { opi_req_tx := false, opi_req_rx := true, has_dummy := false,
          opi_do := 0, cfg_dummy := 10, di := 0 })
      { opi_req_tx := false, opi_req_rx := true, has_dummy := false,
        opi_do := 0, cfg_dummy := 10, di := 0xFFFF }).opi_di = 0xFFFF :=
  (c6_rx_latency.2.2
    { st := OpiSt.IDLE, tx := false, opi_clk_en := false, do_reg := 0,
      opicount := 0, opi_ack := false, opi_di := 0 }
    { opi_req_tx := false, opi_req_rx := true, has_dummy := false,
      opi_do := 0, cfg_dummy := 10, di := 0 }
    { opi_req_tx := false, opi_req_rx := true, has_dummy := false,
      opi_do := 0, cfg_dummy := 10, di := 0xFFFF }
    rfl rfl rfl rfl).2.2

/-! ## Claim C9 -/

/-- Claim C9, against the code: the `id` status register is never written
by any transition of the MAC, and an `rdid` command bit pending in
`command.storage` while the MAC sits in IDLE with no bus request and no
wakeup bit triggers nothing: the MAC stays in IDLE and no PHY request
changes.  The CSR declarations promise that `rdid` issues an RDID
command and updates the id register; no state of the machine implements
it. -/
theorem c9_rdid_never_executes :
    (∀ (s : MacState) (i : MacIn), (macStep s i).id_reg = s.id_reg) ∧
    (∀ (s : MacState) (i : MacIn),
      s.st = MacSt.IDLE → readReq i = false →
      Nat.testBit s.command_storage 1 = false →
      (macStep s i).st = MacSt.IDLE ∧
      (macStep s i).spi_req = s.spi_req ∧
      (macStep s i).opi_req_tx = s.opi_req_tx ∧
      (macStep s i).opi_req_rx = s.opi_req_rx) := by
  constructor
  · intro s i
    rcases s with ⟨st, f1, f2, f3, f4, f5, f6, f7, f8, f9, f10, f11, f12,
                   f13, f14, f15, f16, f17⟩
    cases st <;> simp [macStep] <;> split_ifs <;> rfl
  · intro s i hst hrr hcmd
    rcases s with ⟨st, f1, f2, f3, f4, f5, f6, f7, f8, f9, f10, f11, f12,
                   f13, f14, f15, f16, f17⟩
    cases st <;> simp_all [macStep]

/-- Witness for `c9_rdid_never_executes`: the rdid bit alone pending in
IDLE leaves the machine in IDLE with no PHY request raised. -/
theorem c9_rdid_never_executes_witness :
    (macStep { macInit with st := MacSt.IDLE, command_storage := 1 }
      { bus_cyc := false, bus_stb := false, bus_we := false, bus_cti := 0,
        bus_adr := 0, spi_ack := false, spi_di := 0, opi_ack := false,
        opi_di := 0, cmd_write := none }).st = MacSt.IDLE :=
  (c9_rdid_never_executes.2
    { macInit with st := MacSt.IDLE, command_storage := 1 }
    { bus_cyc := false, bus_stb := false, bus_we := false, bus_cti := 0,
      bus_adr := 0, spi_ack := false, spi_di := 0, opi_ack := false,
      opi_di := 0, cmd_write := none }
    rfl rfl (by decide)).1

/-! ## Claim C10 -/

/-- Claim C10: when the IDLE state takes the wakeup branch it writes the
whole command storage register to zero in that single step (discarding
any other pending command bit, in particular rdid, which no other state
ever reads), and every state of the wake-up phase leaves the command
storage unchanged in the absence of a software write, so no command is
pending when the sequence completes. -/
theorem c10_wakeup_clears_commands :
    (∀ (s : MacState) (i : MacIn),
      s.st = MacSt.IDLE → readReq i = false →
      Nat.testBit s.command_storage 1 = true →
      (macStep s i).command_storage = 0 ∧
      (macStep s i).st = MacSt.WAKEUP_PRE ∧
      (macStep s i).cs_n = true) ∧
    (∀ (s : MacState) (i : MacIn),
      isWakeup s.st = true → i.cmd_write = none →
      (macStep s i).command_storage = s.command_storage) := by
  constructor
  · intro s i hst hrr hcmd
    rcases s with ⟨st, f1, f2, f3, f4, f5, f6, f7, f8, f9, f10, f11, f12,
                   f13, f14, f15, f16, f17⟩
    cases st <;> simp_all [macStep]
  · intro s i hst hcw
    rcases i with ⟨g1, g2, g3, g4, g5, g6, g7, g8, g9, cw⟩
    cases cw with
    | none =>
      rcases s with ⟨st, f1, f2, f3, f4, f5, f6, f7, f8, f9, f10, f11, f12,
                     f13, f14, f15, f16, f17⟩
      cases st <;> simp_all [isWakeup, macStep] <;> split_ifs <;> rfl
    | some v => simp at hcw

/-- Witness for `c10_wakeup_clears_commands`: rdid and wakeup both
pending, the wakeup branch clears the whole register. -/
theorem c10_wakeup_clears_commands_witness :
    (macStep { macInit with st := MacSt.IDLE, command_storage := 3 }
      { bus_cyc := false, bus_stb := false, bus_we := false, bus_cti := 0,
        bus_adr := 0, spi_ack := false, spi_di := 0, opi_ack := false,
        opi_di := 0, cmd_write := none }).command_storage = 0 :=
  (c10_wakeup_clears_commands.1
    { macInit with st := MacSt.IDLE, command_storage := 3 }
    { bus_cyc := false, bus_stb := false, bus_we := false, bus_cti := 0,
      bus_adr := 0, spi_ack := false, spi_di := 0, opi_ack := false,
      opi_di := 0, cmd_write := none }
    rfl rfl (by decide)).1

/-! ## Claim C3 -/

/-- Claim C3: the FSM resets into the RESET state, whose first transition
forces the mode register to SPI before any other state is reachable (the
register powers up at 0 for that single cycle, in which the machine is
still in RESET and no request or acknowledgment is raised); no transition
ever re-enters RESET; once the mode is OPI it stays OPI outside RESET;
and the only transition that moves the mode from SPI to OPI is the
`WAKEUP_CS_EXIT` state at the completion of the wake-up sequence. -/
theorem c3_mode_latch :
    (macInit.st = MacSt.RESET ∧ macInit.spi_req = false ∧
      macInit.opi_req_tx = false ∧ macInit.opi_req_rx = false ∧
      macInit.bus_ack = false) ∧
    (∀ (i : MacIn), (macStep macInit i).spi_mode = true ∧
      (macStep macInit i).st = MacSt.WAKEUP_PRE) ∧
    (∀ (s : MacState) (i : MacIn), (macStep s i).st ≠ MacSt.RESET) ∧
    (∀ (s : MacState) (i : MacIn),
      s.spi_mode = false → s.st ≠ MacSt.RESET →
      (macStep s i).spi_mode = false) ∧
    (∀ (s : MacState) (i : MacIn),
      s.spi_mode = true → (macStep s i).spi_mode = false →
      s.st = MacSt.WAKEUP_CS_EXIT) := by
  refine ⟨by refine ⟨rfl, rfl, rfl, rfl, rfl⟩, ?_, ?_, ?_, ?_⟩
  · intro i
    exact ⟨rfl, rfl⟩
  · intro s i
    rcases s with ⟨st, f1, f2, f3, f4, f5, f6, f7, f8, f9, f10, f11, f12,
                   f13, f14, f15, f16, f17⟩
    cases st <;> simp [macStep] <;> split_ifs <;> simp
  · intro s i hm hr
    rcases s with ⟨st, f1, f2, f3, f4, f5, f6, f7, f8, f9, f10, f11, f12,
                   f13, f14, f15, f16, f17⟩
    cases st <;> simp_all [macStep] <;> split_ifs <;> simp_all
  · intro s i hm hflip
    rcases s with ⟨st, f1, f2, f3, f4, f5, f6, f7, f8, f9, f10, f11, f12,
                   f13, f14, f15, f16, f17⟩
    cases st <;> simp_all [macStep] <;> revert hflip <;> split_ifs <;>
      simp_all

/-- Witness for `c3_mode_latch` at a concrete non-RESET OPI-mode state. -/
theorem c3_mode_latch_witness :
    (macStep { macInit with st := MacSt.IDLE, spi_mode := false }
      { bus_cyc := false, bus_stb := false, bus_we := false, bus_cti := 0,
        bus_adr := 0, spi_ack := false, spi_di := 0, opi_ack := false,
        opi_di := 0, cmd_write := none }).spi_mode = false :=
  c3_mode_latch.2.2.2.1
    { macInit with st := MacSt.IDLE, spi_mode := false }
    { bus_cyc := false, bus_stb := false, bus_we := false, bus_cti := 0,
      bus_adr := 0, spi_ack := false, spi_di := 0, opi_ack := false,
      opi_di := 0, cmd_write := none }
    rfl (by decide)

/-! ## Claim C7 -/

/-- Claim C7: RESET transitions into the wake-up phase with the bus
acknowledgment low; every wake-up-phase state keeps the acknowledgment
low; the phase is only left through `WAKEUP_CS_EXIT` at count 0, which
hands over to IDLE, so IDLE is unreachable before the sequence runs to
completion; during the phase the step function is entirely independent
of the bus request inputs, so a request raised mid-sequence is neither
consumed nor rejected (the wishbone master keeps it pending); and once
in IDLE a pending read request is serviced at once. -/
theorem c7_wakeup_before_service :
    (∀ (i : MacIn), (macStep macInit i).st = MacSt.WAKEUP_PRE ∧
      (macStep macInit i).bus_ack = false) ∧
    (∀ (s : MacState) (i : MacIn), isWakeup s.st = true →
      s.bus_ack = false → (macStep s i).bus_ack = false) ∧
    (∀ (s : MacState) (i : MacIn), isWakeup s.st = true →
      isWakeup (macStep s i).st = true ∨
      ((macStep s i).st = MacSt.IDLE ∧ s.st = MacSt.WAKEUP_CS_EXIT ∧
        s.mac_count = 0)) ∧
    (∀ (s : MacState) (i j : MacIn), isWakeup s.st = true →
      i.spi_ack = j.spi_ack → i.cmd_write = j.cmd_write →
      macStep s i = macStep s j) ∧
    (∀ (s : MacState) (i : MacIn), s.st = MacSt.IDLE → readReq i = true →
      (macStep s i).st ≠ MacSt.IDLE) := by
  refine ⟨fun i => ⟨rfl, rfl⟩, ?_, ?_, ?_, ?_⟩
  · intro s i hw hb
    rcases s with ⟨st, f1, f2, f3, f4, f5, f6, f7, f8, f9, f10, f11, f12,
                   f13, f14, f15, f16, f17⟩
    cases st <;> simp_all [isWakeup, macStep] <;> split_ifs <;> simp_all
  · intro s i hw
    rcases s with ⟨st, f1, f2, f3, f4, f5, f6, f7, f8, f9, f10, f11, f12,
                   f13, f14, f15, f16, f17⟩
    cases st <;> simp_all [isWakeup, macStep] <;> split_ifs <;>
      simp_all [isWakeup]
  · intro s i j hw hack hcw
    rcases s with ⟨st, f1, f2, f3, f4, f5, f6, f7, f8, f9, f10, f11, f12,
                   f13, f14, f15, f16, f17⟩
    cases st <;> simp_all [isWakeup, macStep]
  · intro s i hst hrr
    rcases s with ⟨st, f1, f2, f3, f4, f5, f6, f7, f8, f9, f10, f11, f12,
                   f13, f14, f15, f16, f17⟩
    cases st <;> simp_all [macStep] <;> split_ifs <;> simp

/-- Witness for `c7_wakeup_before_service`: a read request arriving in
the middle of the wake-up sequence leaves the step unchanged relative to
an idle bus. -/
theorem c7_wakeup_before_service_witness :
    macStep { macInit with st := MacSt.WAKEUP_CR2_WREN_1, mac_count := 4 }
      { bus_cyc := true, bus_stb := true, bus_we := false, bus_cti := 2,
        bus_adr := 77, spi_ack := false, spi_di := 0, opi_ack := false,
        opi_di := 0, cmd_write := none } =
    macStep { macInit with st := MacSt.WAKEUP_CR2_WREN_1, mac_count := 4 }
      { bus_cyc := false, bus_stb := false, bus_we := false, bus_cti := 0,
        bus_adr := 0, spi_ack := false, spi_di := 0, opi_ack := false,
        opi_di := 0, cmd_write := none } :=
  c7_wakeup_before_service.2.2.2.1
    { macInit with st := MacSt.WAKEUP_CR2_WREN_1, mac_count := 4 }
    { bus_cyc := true, bus_stb := true, bus_we := false, bus_cti := 2,
      bus_adr := 77, spi_ack := false, spi_di := 0, opi_ack := false,
      opi_di := 0, cmd_write := none }
    { bus_cyc := false, bus_stb := false, bus_we := false, bus_cti := 0,
      bus_adr := 0, spi_ack := false, spi_di := 0, opi_ack := false,
      opi_di := 0, cmd_write := none }
    rfl rfl rfl

/-! ## Claim C8 -/

set_option maxRecDepth 100000 in
/-- Claim C8 counterexample: in the first IDLE state after reset the
address pointer still holds its reset value 0xFFFFFFFC, and the very
first bus read, requesting word address 0x3FFFFFFF (byte address
0xFFFFFFFC), matches the sentinel: the MAC takes the data-only fast path
`OPI_READ_32_D` instead of the full chip-select/command/address/dummy
path that the claim promises for every possible first read address. -/
theorem c8_counterexample :
    (sysRun c8In 210).mac.st = MacSt.IDLE ∧
    (sysRun c8In 210).mac.rom_addr = 0xFFFFFFFC ∧
    (c8In 210).bus_cyc = true ∧ (c8In 210).bus_stb = true ∧
    (c8In 210).bus_we = false ∧ (c8In 210).bus_cti = 0 ∧
    (c8In 210).bus_adr = 0x3FFFFFFF ∧
    (sysRun c8In 211).mac.st = MacSt.OPI_READ_32_D ∧
    (sysRun c8In 211).mac.st ≠ MacSt.OPI_READ_32_CS ∧
    (sysRun c8In 211).mac.st ≠ MacSt.SPI_READ_32_CS := by
  decide

/-- Claim C8 as amended: `rom_addr` resets to 0xFFFFFFFC and is preserved
throughout the wake-up phase, and the first read after reset takes the
full (chip-select, command, address, dummy) path for every word address
except 0x3FFFFFFF, the one 30-bit bus address whose byte address equals
the sentinel (it lies far outside the flash array, but is representable
on the bus and takes the fast path). -/
theorem c8_sentinel_amended :
    macInit.rom_addr = 0xFFFFFFFC ∧
    (∀ (s : MacState) (i : MacIn), isWakeup s.st = true →
      (macStep s i).rom_addr = s.rom_addr) ∧
    (∀ (s : MacState) (i : MacIn),
      s.st = MacSt.IDLE → s.rom_addr = 0xFFFFFFFC → s.new_cycle = true →
      readReq i = true → i.bus_adr % 2 ^ 30 ≠ 0x3FFFFFFF →
      ((macStep s i).st = MacSt.SPI_READ_32_CS ∨
        (macStep s i).st = MacSt.OPI_READ_32_CS) ∧
      (macStep s i).addr_updated = true ∧
      (macStep s i).cs_n = true) := by
  refine ⟨rfl, ?_, ?_⟩
  · intro s i hw
    rcases s with ⟨st, f1, f2, f3, f4, f5, f6, f7, f8, f9, f10, f11, f12,
                   f13, f14, f15, f16, f17⟩
    cases st <;> simp_all [isWakeup, macStep] <;> split_ifs <;> rfl
  · intro s i hst hra hnew hrr hadr
    rcases s with ⟨st, f1, f2, f3, f4, f5, f6, f7, f8, f9, f10, f11, f12,
                   f13, f14, f15, f16, f17⟩
    cases st <;> simp_all [macStep]
    have hc : ¬ (1073741823 = i.bus_adr % 1073741824) := fun h => hadr h.symm
    simp [hc]
    split_ifs <;> simp

/-- Witness for `c8_sentinel_amended`: the first read of word 0 after the
wake-up phase takes the full OPI path. -/
theorem c8_sentinel_amended_witness :
    (macStep
      { macInit with st := MacSt.IDLE, spi_mode := false,
                     new_cycle := true }
      { bus_cyc := true, bus_stb := true, bus_we := false, bus_cti := 2,
        bus_adr := 0, spi_ack := false, spi_di := 0, opi_ack := false,
        opi_di := 0, cmd_write := none }).st = MacSt.OPI_READ_32_CS := by
  have h := (c8_sentinel_amended.2.2
    { macInit with st := MacSt.IDLE, spi_mode := false,
                   new_cycle := true }
    { bus_cyc := true, bus_stb := true, bus_we := false, bus_cti := 2,
      bus_adr := 0, spi_ack := false, spi_di := 0, opi_ack := false,
      opi_di := 0, cmd_write := none }
    rfl rfl rfl (by decide) (by decide)).1
  rcases h with h | h
  · exact absurd h (by decide)
  · exact h

/-! ## Claim C1 -/

set_option maxRecDepth 100000 in
/-- Claim C1 counterexample: after the wake-up sequence, word 5 is read
as a classic cycle (the address pointer advances to byte 24, word 6) and
the bus then requests word 6 with cti = 0, that is with the
burst-continues hint deasserted.  The claim requires the full
(chip-select, command, address, dummy) path whenever the hint is false;
the MAC instead matches `next_read_address` and services the read on the
data-only fast path `OPI_READ_32_D`. -/
theorem c1_counterexample :
    (sysRun c1In 231).mac.st = MacSt.IDLE ∧
    (sysRun c1In 231).mac.rom_addr = 24 ∧
    (c1In 231).bus_cyc = true ∧ (c1In 231).bus_stb = true ∧
    (c1In 231).bus_we = false ∧ (c1In 231).bus_cti = 0 ∧
    (c1In 231).bus_adr = 6 ∧
    (sysRun c1In 232).mac.st = MacSt.OPI_READ_32_D ∧
    (sysRun c1In 232).mac.st ≠ MacSt.OPI_READ_32_CS ∧
    (sysRun c1In 232).mac.st ≠ MacSt.SPI_READ_32_CS := by
  decide

/-- Claim C1 as amended: in IDLE, a qualified read request (cyc and stb
high, a read, cti not 7) takes the full command/address/dummy path
exactly when the requested address differs from the tracked
`next_read_address` and `new_cycle` is set (the strobe was seen
deasserted since the last transfer); a request matching
`next_read_address` is always serviced on the data-only fast path,
whatever the burst hint; a mismatched request with `new_cycle` clear is
also serviced data-only (the cti = 2 comparison on line 501 is
degenerate and can never fire).  The pointer itself advances by one word
per completed data phase: by 4 across the two beats of an OPI data
phase, and by 1 per acknowledged SPI data byte. -/
theorem c1_read_path_amended :
    (∀ (s : MacState) (i : MacIn),
      s.st = MacSt.IDLE → readReq i = true →
      s.rom_addr % 2 ^ 32 / 4 ≠ i.bus_adr % 2 ^ 30 → s.new_cycle = true →
      (macStep s i).st =
        (if s.spi_mode then MacSt.SPI_READ_32_CS
         else MacSt.OPI_READ_32_CS)) ∧
    (∀ (s : MacState) (i : MacIn),
      s.st = MacSt.IDLE → readReq i = true →
      s.rom_addr % 2 ^ 32 / 4 = i.bus_adr % 2 ^ 30 →
      (macStep s i).st =
        (if s.spi_mode then MacSt.SPI_READ_32
         else MacSt.OPI_READ_32_D) ∧
      (s.spi_mode = false → (macStep s i).opi_req_rx = true)) ∧
    (∀ (s : MacState) (i : MacIn),
      s.st = MacSt.IDLE → readReq i = true →
      s.rom_addr % 2 ^ 32 / 4 ≠ i.bus_adr % 2 ^ 30 → s.new_cycle = false →
      (macStep s i).st =
        (if s.spi_mode then MacSt.SPI_READ_32
         else MacSt.OPI_READ_32_D)) ∧
    (∀ (s : MacState) (i1 i2 : MacIn), s.st = MacSt.OPI_READ_32_D →
      (macStep (macStep s i1) i2).rom_addr = (s.rom_addr + 4) % 2 ^ 32 ∧
      (macStep (macStep s i1) i2).st = MacSt.IDLE ∧
      (macStep (macStep s i1) i2).bus_ack = true) ∧
    (∀ (s : MacState) (i : MacIn), s.st = MacSt.SPI_READ_32_D →
      i.spi_ack = true →
      (macStep s i).rom_addr = (s.rom_addr + 1) % 2 ^ 32) := by
  refine ⟨?_, ?_, ?_, ?_, ?_⟩
  · intro s i hst hrr hmis hnew
    rcases s with ⟨st, f1, f2, f3, f4, f5, f6, f7, f8, f9, f10, f11, f12,
                   f13, f14, f15, f16, f17⟩
    cases st <;> simp_all [macStep] <;> split_ifs <;> simp_all
  · intro s i hst hrr hmatch
    rcases s with ⟨st, f1, f2, f3, f4, f5, f6, f7, f8, f9, f10, f11, f12,
                   f13, f14, f15, f16, f17⟩
    cases st <;> simp_all [macStep] <;> split_ifs <;> simp_all
  · intro s i hst hrr hmis hnew
    rcases s with ⟨st, f1, f2, f3, f4, f5, f6, f7, f8, f9, f10, f11, f12,
                   f13, f14, f15, f16, f17⟩
    cases st <;> simp_all [macStep]
    have hland : Nat.land (b2n true) (i.bus_cti % 8) ≠ 2 := by
      have h1 : Nat.land 1 (i.bus_cti % 8) ≤ 1 := Nat.and_le_left
      simp [b2n]
      omega
    simp_all [b2n]
    split_ifs <;> simp_all
  · intro s i1 i2 hst
    rcases s with ⟨st, f1, f2, f3, f4, f5, f6, f7, f8, f9, f10, f11, f12,
                   f13, f14, f15, f16, f17⟩
    cases st <;> simp_all [macStep]
  · intro s i hst hack
    rcases s with ⟨st, f1, f2, f3, f4, f5, f6, f7, f8, f9, f10, f11, f12,
                   f13, f14, f15, f16, f17⟩
    cases st <;> simp_all [macStep]

/-- Witness for `c1_read_path_amended`: a matching sequential address
with the burst hint asserted is serviced on the data-only path. -/
theorem c1_read_path_amended_witness :
    (macStep
      { macInit with st := MacSt.IDLE, spi_mode := false, rom_addr := 24,
                     new_cycle := true }
      { bus_cyc := true, bus_stb := true, bus_we := false, bus_cti := 2,
        bus_adr := 6, spi_ack := false, spi_di := 0, opi_ack := false,
        opi_di := 0, cmd_write := none }).st = MacSt.OPI_READ_32_D := by
  have h := (c1_read_path_amended.2.1
    { macInit with st := MacSt.IDLE, spi_mode := false, rom_addr := 24,
                   new_cycle := true }
    { bus_cyc := true, bus_stb := true, bus_we := false, bus_cti := 2,
      bus_adr := 6, spi_ack := false, spi_di := 0, opi_ack := false,
      opi_di := 0, cmd_write := none }
    rfl rfl (by decide)).1
  simpa using h

/-! ## Claim C2 -/

set_option maxRecDepth 100000 in
/-- Claim C2 counterexample: the bytes actually shifted out by the
wake-up sequence are not the claimed list; each CR2 write carries four
address bytes, so an extra 0x00 follows each 0x72 relative to the
claim. -/
theorem c2_counterexample :
    (wakeObs quietIn 230).2.2.map (fun e => e.1) ≠ claimedWakeBytes := by
  decide

set_option maxRecDepth 100000 in
/-- Claim C2 as amended: starting from reset with an idle bus, the MAC
transmits over the SPI PHY exactly the bytes 0xAB, then 0x06, then 0x72
followed by 0x00 0x00 0x03 0x00 0x05, then 0x06, then 0x72 followed by
0x00 0x00 0x00 0x00 0x02, in that order (each CR2 write carries a
four-byte register address before its data byte); chip select is seen
raised before each of the five sub-commands and stays low inside each;
the protocol mode flag is still SPI at every byte and the machine
reaches IDLE with the mode switched to OPI. -/
theorem c2_wakeup_trace_amended :
    (wakeObs quietIn 230).2.2 =
      [(0xAB, true, true), (0x06, true, true), (0x72, true, true),
       (0x00, false, true), (0x00, false, true), (0x03, false, true),
       (0x00, false, true), (0x05, false, true),
       (0x06, true, true), (0x72, true, true),
       (0x00, false, true), (0x00, false, true), (0x00, false, true),
       (0x00, false, true), (0x02, false, true)] ∧
    (wakeObs quietIn 230).1.mac.spi_mode = false ∧
    (wakeObs quietIn 230).1.mac.st = MacSt.IDLE := by
  decide

/-! ## Claim C4 -/

theorem spiphyIter_shift (i : SpiPhyIn) (s : SpiPhyState) (k : Nat) :
    spiphyIter i s (k + 1) = spiphyIter i (spiphyStep s i) k := by
  induction k with
  | zero => rfl
  | succ k ih =>
      show spiphyStep (spiphyIter i s (k + 1)) i = _
      rw [ih]
      rfl

theorem opiphyIter_shift (i : OpiPhyIn) (s : OpiPhyState) (k : Nat) :
    opiphyIter i s (k + 1) = opiphyIter i (opiphyStep s i) k := by
  induction k with
  | zero => rfl
  | succ k ih =>
      show opiphyStep (opiphyIter i s (k + 1)) i = _
      rw [ih]
      rfl

/-- A DUMMY-state run of the SPI PHY with the request line held: from a
DUMMY state with count `c` at least 1, zeroed shift register and the
clock enabled, the machine stays in DUMMY for exactly `c` cycles with the
output forced to zero and the clock enabled, and in cycle `c` it has
reloaded the queued data byte and raised the acknowledgment pipe. -/
theorem spi_dummy_run (i : SpiPhyIn) (hreq : i.spi_req = true) :
    ∀ (c : Nat) (s : SpiPhyState), s.st = SpiSt.DUMMY → s.spicount = c →
      1 ≤ c → s.spi_so = 0 → s.spi_clk_en = true →
      (∀ k, k < c → (spiphyIter i s k).st = SpiSt.DUMMY ∧
        (spiphyIter i s k).spi_so = 0 ∧
        (spiphyIter i s k).spi_clk_en = true) ∧
      (spiphyIter i s c).spi_so = i.spi_do % 256 ∧
      (spiphyIter i s c).spi_ack_pipe = true := by
  intro c
  induction c with
  | zero => intro s _ _ h; omega
  | succ c ih =>
    intro s hst hcnt hge hso hclk
    rcases s with ⟨st, cnt, clk, so, dum, ackp, ld2, di, ack, si⟩
    simp only at hst hcnt hso hclk
    subst hst hcnt hso hclk
    by_cases hc : c = 0
    · subst hc
      have hl : Nat.land 1 1 = 1 := by decide
      refine ⟨?_, ?_, ?_⟩
      · intro k hk
        have hk0 : k = 0 := by omega
        subst hk0
        exact ⟨rfl, rfl, rfl⟩
      · simp [spiphyIter, spiphyStep, hreq, b2n, hl]
      · simp [spiphyIter, spiphyStep, hreq, b2n, hl]
    · have hge2 : 1 ≤ c := Nat.one_le_iff_ne_zero.mpr hc
      have hgt : c + 1 > 1 := by omega
      have hstep :
          spiphyStep
            ⟨SpiSt.DUMMY, c + 1, true, 0, dum, ackp, ld2, di, ack, si⟩ i =
          ⟨SpiSt.DUMMY, c, true, 0, dum, ackp, false,
            if ld2 then si % 128 * 2 + b2n i.miso else di, ackp,
            si % 128 * 2 + b2n i.miso⟩ := by
        simp [spiphyStep, hgt]
      have hnext := ih
        (spiphyStep ⟨SpiSt.DUMMY, c + 1, true, 0, dum, ackp, ld2, di, ack,
          si⟩ i)
        (by rw [hstep]) (by rw [hstep]) hge2 (by rw [hstep])
        (by rw [hstep])
      refine ⟨?_, ?_, ?_⟩
      · intro k hk
        cases k with
        | zero => exact ⟨rfl, rfl, rfl⟩
        | succ j =>
          rw [spiphyIter_shift]
          exact hnext.1 j (by omega)
      · rw [spiphyIter_shift]
        exact hnext.2.1
      · rw [spiphyIter_shift]
        exact hnext.2.2

/-- A DUMMY-state run of the OPI PHY: from a DUMMY state with count `c`
and the clock enabled, the machine stays in DUMMY for exactly `c + 1`
cycles (count `c` down to 0) with the clock enabled and the output
register zeroed from the second cycle on, and in cycle `c + 1` it is in
`RX_PIPE` with the acknowledgment raised and the clock enabled. -/
theorem opi_dummy_run (i : OpiPhyIn) :
    ∀ (c : Nat) (s : OpiPhyState), s.st = OpiSt.DUMMY → s.opicount = c →
      s.opi_clk_en = true →
      (∀ k, k ≤ c → (opiphyIter i s k).st = OpiSt.DUMMY ∧
        (opiphyIter i s k).opi_clk_en = true ∧
        (1 ≤ k → (opiphyIter i s k).do_reg = 0)) ∧
      (opiphyIter i s (c + 1)).st = OpiSt.RX_PIPE ∧
      (opiphyIter i s (c + 1)).opi_ack = true ∧
      (opiphyIter i s (c + 1)).opi_clk_en = true := by
  intro c
  induction c with
  | zero =>
    intro s hst hcnt hclk
    rcases s with ⟨st, tx, clk, dr, oc, oa, od⟩
    simp only at hst hcnt hclk
    subst hst hcnt hclk
    refine ⟨?_, rfl, rfl, rfl⟩
    intro k hk
    have hk0 : k = 0 := by omega
    subst hk0
    exact ⟨rfl, rfl, by omega⟩
  | succ c ih =>
    intro s hst hcnt hclk
    rcases s with ⟨st, tx, clk, dr, oc, oa, od⟩
    simp only at hst hcnt hclk
    subst hst hcnt hclk
    have hstep :
        opiphyStep ⟨OpiSt.DUMMY, tx, true, dr, c + 1, oa, od⟩ i =
        ⟨OpiSt.DUMMY, false, true, 0, c, oa, od⟩ := by
      simp [opiphyStep]
    have hnext := ih (opiphyStep ⟨OpiSt.DUMMY, tx, true, dr, c + 1, oa, od⟩ i)
      (by rw [hstep]) (by rw [hstep]) (by rw [hstep])
    refine ⟨?_, ?_, ?_, ?_⟩
    · intro k hk
      cases k with
      | zero => exact ⟨rfl, rfl, by omega⟩
      | succ j =>
        rw [opiphyIter_shift]
        refine ⟨(hnext.1 j (by omega)).1, (hnext.1 j (by omega)).2.1, ?_⟩
        intro _
        cases j with
        | zero =>
          rw [hstep]
          rfl
        | succ m => exact (hnext.1 (m + 1) (by omega)).2.2 (by omega)
    · rw [opiphyIter_shift]
      exact hnext.2.1
    · rw [opiphyIter_shift]
      exact hnext.2.2.1
    · rw [opiphyIter_shift]
      exact hnext.2.2.2

/-- Claim C4 as amended: for every configured dummy count N with
1 ≤ N ≤ 31, a qualifying PHY transaction (one requested with a trailing
dummy phase) inserts exactly N dummy cycles in both machines: the SPI PHY
spends exactly cycles 0..N-1 after the eighth bit in its DUMMY state with
the clock enabled and the output shift register forced to zero, reloading
the queued data byte and raising the acknowledgment in cycle N, and the
OPI PHY spends exactly cycles 0..N-1 after accepting the transmit in its
DUMMY state with the clock enabled (the output register, which still
carries the final address word in the first of those cycles, is zeroed
in all later ones), entering RX_PIPE with the acknowledgment raised in
cycle N.  The claim fails for N = 0, see the counterexample. -/
theorem c4_dummy_count_amended :
    ∀ (N d w : Nat), 1 ≤ N → N ≤ 31 →
      ((∀ k, k < N →
          (spiphyIter (spiDin N d) (eSpi N d) k).st = SpiSt.DUMMY ∧
          (spiphyIter (spiDin N d) (eSpi N d) k).spi_so = 0 ∧
          (spiphyIter (spiDin N d) (eSpi N d) k).spi_clk_en = true) ∧
        (spiphyIter (spiDin N d) (eSpi N d) N).spi_so = d % 256 ∧
        (spiphyIter (spiDin N d) (eSpi N d) N).spi_ack_pipe = true) ∧
      ((∀ k, k < N →
          (opiphyIter (opiDin N w) (eOpi N w) k).st = OpiSt.DUMMY ∧
          (opiphyIter (opiDin N w) (eOpi N w) k).opi_clk_en = true ∧
          (1 ≤ k → (opiphyIter (opiDin N w) (eOpi N w) k).do_reg = 0)) ∧
        (opiphyIter (opiDin N w) (eOpi N w) N).st = OpiSt.RX_PIPE ∧
        (opiphyIter (opiDin N w) (eOpi N w) N).opi_ack = true) := by
  intro N d w h1 h31
  have hmod : N % 32 = N := Nat.mod_eq_of_lt (by omega)
  constructor
  · have hentry : eSpi N d =
        ⟨SpiSt.DUMMY, N, true, 0, true, false, true, 0, false, 0⟩ := by
      simp [eSpi, spiphyStep, spiDin, spiphyInit, hmod, b2n]
    have h := spi_dummy_run (spiDin N d) rfl N (eSpi N d)
      (by rw [hentry]) (by rw [hentry]) h1 (by rw [hentry])
      (by rw [hentry])
    exact ⟨h.1, h.2.1, h.2.2⟩
  · have hc : (N % 32 + 31) % 32 = N - 1 := by omega
    have hentry : eOpi N w =
        ⟨OpiSt.DUMMY, true, true, w % 65536, N - 1, false, 0⟩ := by
      simp [eOpi, opiphyStep, opiDin, opiphyInit, hc]
    have h := opi_dummy_run (opiDin N w) (N - 1) (eOpi N w)
      (by rw [hentry]) (by rw [hentry]) (by rw [hentry])
    have he : N - 1 + 1 = N := by omega
    refine ⟨fun k hk => h.1 k (by omega), ?_, ?_⟩
    · have := h.2.1
      rwa [he] at this
    · have := h.2.2.1
      rwa [he] at this

/-- Witness for `c4_dummy_count_amended` at the default configuration
N = 10. -/
theorem c4_dummy_count_amended_witness :
    (spiphyIter (spiDin 10 0xFF) (eSpi 10 0xFF) 10).spi_ack_pipe = true ∧
    (opiphyIter (opiDin 10 0x34) (eOpi 10 0x34) 10).st = OpiSt.RX_PIPE :=
  ⟨(c4_dummy_count_amended 10 0xFF 0x34 (by norm_num)
      (by norm_num)).1.2.2,
   (c4_dummy_count_amended 10 0xFF 0x34 (by norm_num)
      (by norm_num)).2.2.1⟩

/-- Claim C4 counterexample at the configured count N = 0: the claim
demands zero dummy cycles, but the SPI PHY still spends one cycle in
DUMMY with the output zeroed and the clock enabled before reloading, and
the OPI PHY, whose counter load `dummy - 1` wraps to 31, is still in
DUMMY after 31 cycles and only reaches RX_PIPE in cycle 32. -/
theorem c4_counterexample :
    (eSpi 0 0xFF).st = SpiSt.DUMMY ∧ (eSpi 0 0xFF).spi_so = 0 ∧
    (eSpi 0 0xFF).spi_clk_en = true ∧
    (spiphyIter (spiDin 0 0xFF) (eSpi 0 0xFF) 1).spi_so = 0xFF ∧
    (spiphyIter (spiDin 0 0xFF) (eSpi 0 0xFF) 1).spi_ack_pipe = true ∧
    (opiphyIter (opiDin 0 0x1234) (eOpi 0 0x1234) 31).st = OpiSt.DUMMY ∧
    (opiphyIter (opiDin 0 0x1234) (eOpi 0 0x1234) 32).st =
      OpiSt.RX_PIPE := by
  decide

end Spinor
